import Mathlib

/-!
Shallow embedding of the Dashboard Rendering Engine of
`src/domain/transformers/chat_responses.py`.

Conventions of the embedding:
* Python dicts with a fixed shape become structures; a nullable / possibly
  absent string field becomes `Option String` (`none` models both `None` and
  an absent key reached through `.get`).
* Python dicts used as maps (e.g. `Deployments`, `RunbookRuns`,
  `ProjectEnvironments`) become association lists `List (String × α)`,
  iterated in insertion order; keys are unique in any state a Python dict
  can represent.
* A required key access `dashboard["K"]` on a snapshot that may lack the key
  is modelled in the `Except String` monad: a missing key raises (KeyError),
  carried as `Except.error "K"`.
* Timestamps are abstracted as integer instants (epoch seconds); the ambient
  clock `datetime.now(pytz.utc)` captured at the top of each render entry
  point is passed in as an explicit `now : Int` argument.
* Python string truthiness (`if s:` is false for `None` and `""`) is
  `truthyOpt`; list truthiness is `truthyList`.
-/

/-- Python truthiness of an optional string: `None` and `""` are falsy. -/
def truthyOpt : Option String → Bool
  | none => false
  | some s => s ≠ ""

/-- Python truthiness of an optional list: `None` and `[]` are falsy. -/
def truthyList {α : Type} : Option (List α) → Bool
  | none => false
  | some l => !l.isEmpty

/-- Rendering of an optional string inside a Python f-string: `None` prints
as the four characters `None`. -/
def pyStr : Option String → String
  | none => "None"
  | some s => s

/-- Required-key access `dashboard["K"]`: a missing key raises `KeyError`,
modelled as `Except.error` carrying the key name. -/
def req {α : Type} (field : Option α) (key : String) : Except String α :=
  match field with
  | some v => Except.ok v
  | none => Except.error key

/-- `str.join` over a list that may contain `None` raises `TypeError` in
Python; joining therefore requires every element to be an actual string. -/
def allSome : List (Option String) → Except String (List String)
  | [] => Except.ok []
  | none :: _ => Except.error "TypeError"
  | some s :: rest => do
    let tail ← allSome rest
    Except.ok (s :: tail)

/-- Effectful map in the `Except` monad, evaluated left to right (the order
in which Python materialises `list(map(...))` and loop bodies). -/
def mapE {α β : Type} (f : α → Except String β) : List α → Except String (List β)
  | [] => Except.ok []
  | a :: rest => do
    let b ← f a
    let tail ← mapE f rest
    Except.ok (b :: tail)

/-- First value for a key in an association list modelling a Python dict. -/
def lookupAssoc {α : Type} (pairs : List (String × α)) (key : String) : Option α :=
  (pairs.find? (fun p => p.1 == key)).map (fun p => p.2)

/-- Modelled from the spec: `yield_first` (from `domain/sanitizers/sanitized_list`,
not present under `src/`) yields at most the first element of a sequence —
"only the **first** such match is used" (spec §4.5), "find first satisfying
predicate ... later matches are silently dropped" (spec §9). -/
def yield_first {α : Type} (l : List α) : List α :=
  l.take 1

/-- Modelled from the spec: timestamps are abstract integer instants, so the
date parser `parse_unknown_format_date` (from `domain/date/parse_dates`, not
present under `src/`) is the identity on the abstract instant. -/
def parse_unknown_format_date (created : Int) : Int :=
  created

/-- Unit word with Python-style pluralisation (`1 hour`, `2 days`, `0 seconds`). -/
def pluralize (n : Nat) (unit : String) : String :=
  toString n ++ " " ++ unit ++ (if n = 1 then "" else "s")

/-- Modelled from the spec: `get_date_difference_summary` (from
`domain/date/date_difference`, not present under `src/`) is the
RelativeTimeFormatter of spec §4.1 — "the largest whole unit description
among {seconds, minutes, hours, days} with unit pluralization"; a zero
duration yields "0 seconds". The duration is in seconds. -/
def get_date_difference_summary (duration : Int) : String :=
  let secs := duration.toNat
  if secs ≥ 86400 then pluralize (secs / 86400) "day"
  else if secs ≥ 3600 then pluralize (secs / 3600) "hour"
  else if secs ≥ 60 then pluralize (secs / 60) "minute"
  else pluralize secs "second"

/-! ## Data model (spec §3) -/

structure Environment where
  Id : String
  Name : String
  deriving Repr, DecidableEq

structure ProjectGroup where
  Id : String
  Name : String
  EnvironmentIds : List String
  deriving Repr, DecidableEq

structure Project where
  Id : String
  Name : String
  ProjectGroupId : String
  deriving Repr, DecidableEq

structure Deployment where
  ProjectId : String
  EnvironmentId : String
  TenantId : Option String
  ReleaseId : String
  ReleaseVersion : String
  DeploymentId : String
  ChannelId : String
  Created : Int
  State : String
  HasWarningsOrErrors : Bool
  deriving Repr, DecidableEq

structure ReleaseInfo where
  Id : String
  deriving Repr, DecidableEq

structure ReleaseEntry where
  Release : ReleaseInfo
  Deployments : List (String × List Deployment)
  deriving Repr, DecidableEq

structure Tenant where
  Id : Option String
  Name : String
  ProjectEnvironments : List (String × List String)
  deriving Repr, DecidableEq

structure RunbookRun where
  TenantId : Option String
  Created : Int
  State : String
  HasWarningsOrErrors : Bool
  deriving Repr, DecidableEq

structure GithubRepo where
  ProjectId : String
  Owner : String
  Repo : String
  deriving Repr, DecidableEq

structure GithubActionStatus where
  ProjectId : String
  Status : Option String
  Conclusion : Option String
  Name : Option String
  ShortSha : Option String
  Url : Option String
  CreatedAt : Option Int
  deriving Repr, DecidableEq

structure WorkflowRun where
  ReleaseId : String
  Name : Option String
  ShortSha : Option String
  Url : Option String
  Status : Option String
  Conclusion : Option String
  deriving Repr, DecidableEq

structure ProjectCount where
  ProjectId : String
  Count : Int
  deriving Repr, DecidableEq

structure DeploymentHighlight where
  DeploymentId : String
  Highlights : String
  deriving Repr, DecidableEq

/-- The dashboard snapshot. Every top-level key the renderers access is
optional here so that a missing required key can be modelled (a `none`
field is a snapshot without that key; access raises `KeyError`). -/
structure Dashboard where
  Environments : Option (List Environment) := none
  ProjectGroups : Option (List ProjectGroup) := none
  Projects : Option (List Project) := none
  Items : Option (List Deployment) := none
  Releases : Option (List ReleaseEntry) := none
  Tenants : Option (List Tenant) := none
  RunbookRuns : Option (List (String × List RunbookRun)) := none
  deriving Repr, DecidableEq

/-! ## Table emitter -/

/-- `build_markdown_table_row` of `chat_responses.py`. -/
def build_markdown_table_row (columns : List String) : String :=
  if columns.isEmpty then ""
  else "| " ++ String.intercalate " | " columns ++ " |\n"

/-- `build_markdown_table_header_separator` of `chat_responses.py`:
`count + 1` pipes joined with single dashes. -/
def build_markdown_table_header_separator (count : Nat) : String :=
  if count = 0 then ""
  else String.intercalate "-" (List.replicate (count + 1) "|") ++ "\n"

/-! ## Status icons -/

/-- `get_state_icon` of `chat_responses.py`. -/
def get_state_icon (state : String) (has_warnings : Bool) : String :=
  if state = "Executing" then "🔵"
  else if state = "Success" then
    (if has_warnings then "🟡" else "🟢")
  else if state = "Failed" then "🔴"
  else if state = "Canceled" then "⚪"
  else if state = "TimedOut" then "🔴"
  else if state = "Cancelling" then "🔴"
  else if state = "Queued" then "🟣"
  else "⚪"

/-- `get_github_state_icon` of `chat_responses.py`. -/
def get_github_state_icon (status conclusion : Option String) : String :=
  if status = some "in_progress" then "🔵"
  else if status = some "queued" then "🟣"
  else if conclusion = some "success" then "🟢"
  else if conclusion = some "failure" ∨ conclusion = some "timed_out" then "🔴"
  else if conclusion = some "action_required" then "🟠"
  else if conclusion = some "cancelled" ∨ conclusion = some "neutral" ∨ conclusion = some "skipped" then "⚪"
  else "⚪"

/-! ## Link builders -/

/-- `build_deployment_url` of `chat_responses.py`. -/
def build_deployment_url (octopus_url space_id project_id release_version deployment_id : String) : String :=
  octopus_url ++ "/app#/" ++ space_id ++ "/projects/" ++ project_id ++
    "/deployments/releases/" ++ release_version ++ "/deployments/" ++ deployment_id

/-- `build_repo_link` of `chat_responses.py`. -/
def build_repo_link (github_repo : Option GithubRepo) : List String :=
  match github_repo with
  | none => []
  | some repo =>
    ["🗎 [GitHub Repo](https://github.com/" ++ repo.Owner ++ "/" ++ repo.Repo ++ ")"]

/-- `build_pr_response` of `chat_responses.py`. -/
def build_pr_response (pull_requests : Option ProjectCount) (github_repo : Option GithubRepo) : List String :=
  match pull_requests, github_repo with
  | some pr, some repo =>
    ["🔁 [" ++ toString pr.Count ++ " PR" ++ (if pr.Count ≠ 1 then "s" else "") ++
      "](https://github.com/" ++ repo.Owner ++ "/" ++ repo.Repo ++ "/pulls)"]
  | _, _ => []

/-- `build_pr_response_for_project` of `chat_responses.py`. -/
def build_pr_response_for_project (pull_requests : Option (List ProjectCount))
    (project_id : String) (github_repo : Option GithubRepo) : List String :=
  match pull_requests with
  | none => []
  | some [] => []
  | some prs => build_pr_response (prs.find? (fun x => x.ProjectId == project_id)) github_repo

/-- `build_issue_response` of `chat_responses.py`. -/
def build_issue_response (issues : Option ProjectCount) (github_repo : Option GithubRepo) : List String :=
  match issues, github_repo with
  | some iss, some repo =>
    ["🐛 [" ++ toString iss.Count ++ " issue" ++ (if iss.Count ≠ 1 then "s" else "") ++
      "](https://github.com/" ++ repo.Owner ++ "/" ++ repo.Repo ++ "/issues)"]
  | _, _ => []

/-- `build_issue_response_for_project` of `chat_responses.py`. -/
def build_issue_response_for_project (issues : Option (List ProjectCount))
    (project_id : String) (github_repo : Option GithubRepo) : List String :=
  match issues with
  | none => []
  | some [] => []
  | some iss => build_issue_response (iss.find? (fun x => x.ProjectId == project_id)) github_repo

/-- `get_project_workflow_status` of `chat_responses.py`. `summary c` is the
relative-time phrase `get_date_difference_summary (now - c)` for the ambient
`now` captured at the start of the call. -/
def get_project_workflow_status (summary : Int → String)
    (github_actions_statuses : Option (List GithubActionStatus)) (project_id : String) : List String :=
  if truthyList github_actions_statuses then
    match (github_actions_statuses.getD []).find?
        (fun x => x.ProjectId == project_id && truthyOpt x.Status) with
    | none => []
    | some st =>
      [get_github_state_icon st.Status st.Conclusion ++ " " ++
        "[" ++ pyStr st.Name ++ " " ++ pyStr st.ShortSha ++ "](" ++ pyStr st.Url ++ ")"] ++
      (match st.CreatedAt with
       | some created => ["🕗 " ++ summary created ++ " ago"]
       | none => [])
  else []

/-- `get_env_name` of `chat_responses.py`: first environment with the given
id, `none` when absent; accesses the required key `Environments`. -/
def get_env_name (dashboard : Dashboard) (environment_id : String) : Except String (Option String) := do
  let envs ← req dashboard.Environments "Environments"
  match envs.find? (fun e => e.Id == environment_id) with
  | none => Except.ok none
  | some environment => Except.ok (some environment.Name)

/-! ## Space-level dashboard (`get_dashboard_response`) -/

/-- One deployment cell of a project row in the space dashboard: the first
`Items` entry for the (project, environment) pair, or the placeholder. The
fragment carries its leading pipe exactly as the source appends it. -/
def dashboard_deployment_cell (octopus_url space_id : String) (summary : Int → String)
    (dashboard : Dashboard) (project_id environment_id : String) : Except String String := do
  let items ← req dashboard.Items "Items"
  let deployment := items.filter
    (fun d => d.ProjectId == project_id && d.EnvironmentId == environment_id)
  match deployment with
  | [] => Except.ok "| ⨂ "
  | last_deployment :: _ =>
    let created := parse_unknown_format_date last_deployment.Created
    let difference := summary created
    let icon := get_state_icon last_deployment.State last_deployment.HasWarningsOrErrors
    let url := build_deployment_url octopus_url space_id last_deployment.ProjectId
      last_deployment.ReleaseVersion last_deployment.DeploymentId
    let messages := [icon ++ " [" ++ last_deployment.ReleaseVersion ++ "](" ++ url ++ ")",
      "🕗 " ++ difference ++ " ago"]
    Except.ok ("| " ++ String.intercalate "<br/>" messages)

/-- The optional GitHub cell of a project row (emitted only when
`github_actions_status` is truthy). -/
def dashboard_github_cell (summary : Int → String)
    (github_actions : Option (List GithubRepo))
    (github_actions_status : Option (List GithubActionStatus))
    (pull_requests issues : Option (List ProjectCount)) (project : Project) : List String :=
  if truthyList github_actions_status then
    let github_repo := (github_actions.getD []).find?
      (fun x => x.ProjectId == project.Id && x.Repo ≠ "" && x.Owner ≠ "")
    let github_messages :=
      build_repo_link github_repo ++
      get_project_workflow_status summary github_actions_status project.Id ++
      build_pr_response_for_project pull_requests project.Id github_repo ++
      build_issue_response_for_project issues project.Id github_repo
    if github_messages.isEmpty then ["| ⨂ "]
    else ["| " ++ String.intercalate "<br/>" github_messages]
  else []

/-- All cell fragments of one project row of the space dashboard, in emission
order; the row string is their concatenation followed by the closing pipe. -/
def dashboard_project_row_cells (octopus_url space_id : String) (summary : Int → String)
    (dashboard : Dashboard)
    (github_actions : Option (List GithubRepo))
    (github_actions_status : Option (List GithubActionStatus))
    (pull_requests issues : Option (List ProjectCount))
    (project_group : ProjectGroup) (project : Project) : Except String (List String) := do
  let deployment_cells ← mapE
    (dashboard_deployment_cell octopus_url space_id summary dashboard project.Id)
    project_group.EnvironmentIds
  Except.ok (("| " ++ project.Name ++ " ") ::
    dashboard_github_cell summary github_actions github_actions_status pull_requests issues project ++
    deployment_cells)

/-- The header columns of one project-group table: the group name, the
optional GitHub column, then the environment names. A name that resolved to
`None` makes the string join raise `TypeError`. -/
def dashboard_group_columns (dashboard : Dashboard)
    (github_actions_status : Option (List GithubActionStatus))
    (project_group : ProjectGroup) : Except String (List String) := do
  let names ← mapE (get_env_name dashboard) project_group.EnvironmentIds
  let environment_names :=
    (if truthyList github_actions_status then [some "GitHub"] else []) ++ names
  allSome (some project_group.Name :: environment_names)

/-- One project-group block of the space dashboard: header row, separator,
one row per project of the group, and a trailing blank line. -/
def dashboard_group_block (octopus_url space_id : String) (summary : Int → String)
    (dashboard : Dashboard)
    (github_actions : Option (List GithubRepo))
    (github_actions_status : Option (List GithubActionStatus))
    (pull_requests issues : Option (List ProjectCount))
    (project_group : ProjectGroup) : Except String String := do
  let columns ← dashboard_group_columns dashboard github_actions_status project_group
  let header := build_markdown_table_row columns
  let separator := build_markdown_table_header_separator columns.length
  let all_projects ← req dashboard.Projects "Projects"
  let projects := all_projects.filter (fun p => p.ProjectGroupId == project_group.Id)
  let rows ← mapE (fun project => do
    let cells ← dashboard_project_row_cells octopus_url space_id summary dashboard
      github_actions github_actions_status pull_requests issues project_group project
    Except.ok (String.join cells ++ "|\n")) projects
  Except.ok (header ++ separator ++ String.join rows ++ "\n")

/-- `get_dashboard_response` with the ambient clock factored into the
relative-time function `summary` (so `summary c` is the phrase for a record
created at instant `c`). -/
def get_dashboard_response_core (octopus_url space_id space_name : String)
    (summary : Int → String) (dashboard : Dashboard)
    (github_actions : Option (List GithubRepo))
    (github_actions_status : Option (List GithubActionStatus))
    (pull_requests issues : Option (List ProjectCount)) : Except String String := do
  let groups ← req dashboard.ProjectGroups "ProjectGroups"
  let blocks ← mapE
    (dashboard_group_block octopus_url space_id summary dashboard
      github_actions github_actions_status pull_requests issues)
    groups
  Except.ok ("# " ++ space_name ++ "\n\n" ++ String.join blocks)

/-- `get_dashboard_response` of `chat_responses.py`; `now` is the instant the
source reads from `datetime.now(pytz.utc)` on entry. -/
def get_dashboard_response (octopus_url space_id space_name : String) (now : Int)
    (dashboard : Dashboard)
    (github_actions : Option (List GithubRepo) := none)
    (github_actions_status : Option (List GithubActionStatus) := none)
    (pull_requests : Option (List ProjectCount) := none)
    (issues : Option (List ProjectCount) := none) : Except String String :=
  get_dashboard_response_core octopus_url space_id space_name
    (fun created => get_date_difference_summary (now - created)) dashboard
    github_actions github_actions_status pull_requests issues

/-! ## Single-project dashboard (`get_project_dashboard_response`) -/

/-- Match predicate for workflow runs attached to a release: the run's
release id equals the release's id and the run has a truthy short sha and
url. -/
def workflow_run_matches (release_id : String) (x : WorkflowRun) : Bool :=
  x.ReleaseId == release_id && truthyOpt x.ShortSha && truthyOpt x.Url

/-- The workflow runs attached to a release's cell:
`yield_first(filter(..., release_workflow_runs or []))` of the source. -/
def matching_workflow_runs (release_workflow_runs : Option (List WorkflowRun))
    (release_id : String) : List WorkflowRun :=
  yield_first ((release_workflow_runs.getD []).filter (workflow_run_matches release_id))

/-- The rendered line for one attached workflow run. -/
def workflow_run_line (x : WorkflowRun) : String :=
  get_github_state_icon x.Status x.Conclusion ++ " " ++
    "[" ++ pyStr x.Name ++ " " ++ pyStr x.ShortSha ++ "](" ++ pyStr x.Url ++ ")"

/-- The highlight lines attached to a deployment's cell. -/
def highlight_lines (deployment_highlights : Option (List DeploymentHighlight))
    (deployment_id : String) : List String :=
  ((deployment_highlights.getD []).filter (fun x => x.DeploymentId == deployment_id)).map
    (fun x => x.Highlights)

/-- One deployment cell of the single body row of the project dashboard. -/
def project_dashboard_deployment_cell (octopus_url space_id : String) (summary : Int → String)
    (release_workflow_runs : Option (List WorkflowRun))
    (deployment_highlights : Option (List DeploymentHighlight))
    (release_id : String) (deployment : Deployment) : String :=
  let created := parse_unknown_format_date deployment.Created
  let difference := summary created
  let icon := get_state_icon deployment.State deployment.HasWarningsOrErrors
  let release_url := build_deployment_url octopus_url space_id deployment.ProjectId
    deployment.ReleaseVersion deployment.DeploymentId
  let messages :=
    [icon ++ " [" ++ deployment.ReleaseVersion ++ "](" ++ release_url ++ ")",
      "🕗 " ++ difference ++ " ago"] ++
    (matching_workflow_runs release_workflow_runs release_id).map workflow_run_line ++
    highlight_lines deployment_highlights deployment.DeploymentId
  "| " ++ String.intercalate "<br/>" messages

/-- The cell fragments one (environment, release) pair contributes to the
single body row: one cell per deployment of the release in that environment
when the environment key is present, else one placeholder cell. -/
def project_dashboard_pair_cells (octopus_url space_id : String) (summary : Int → String)
    (release_workflow_runs : Option (List WorkflowRun))
    (deployment_highlights : Option (List DeploymentHighlight))
    (environment : Environment) (release : ReleaseEntry) : List String :=
  match lookupAssoc release.Deployments environment.Id with
  | some deployments => deployments.map
      (project_dashboard_deployment_cell octopus_url space_id summary
        release_workflow_runs deployment_highlights release.Release.Id)
  | none => ["| ⨂ "]

/-- All cell fragments of the single body row of the project dashboard, in
emission order (environments outer, releases inner). -/
def project_dashboard_body_cells (octopus_url space_id : String) (summary : Int → String)
    (release_workflow_runs : Option (List WorkflowRun))
    (deployment_highlights : Option (List DeploymentHighlight))
    (environments : List Environment) (releases : List ReleaseEntry) : List String :=
  (environments.map (fun environment =>
    (releases.map (project_dashboard_pair_cells octopus_url space_id summary
      release_workflow_runs deployment_highlights environment)).flatten)).flatten

/-- `get_project_dashboard_response` with the ambient clock factored into
`summary`. -/
def get_project_dashboard_response_core (octopus_url space_id space_name project_name project_id : String)
    (summary : Int → String) (dashboard : Dashboard)
    (github_repo : Option GithubRepo)
    (github_actions_statuses : Option (List GithubActionStatus))
    (pull_requests issues : Option ProjectCount)
    (release_workflow_runs : Option (List WorkflowRun))
    (deployment_highlights : Option (List DeploymentHighlight)) : Except String String := do
  let message :=
    build_repo_link github_repo ++
    get_project_workflow_status summary github_actions_statuses project_id ++
    build_pr_response pull_requests github_repo ++
    build_issue_response issues github_repo
  let header_block := if message.isEmpty then ""
    else String.intercalate "<br/>" message ++ "\n\n"
  let environments ← req dashboard.Environments "Environments"
  let environment_names := environments.map (fun e => e.Name)
  let header := build_markdown_table_row environment_names
  let separator := build_markdown_table_header_separator environment_names.length
  let releases ← req dashboard.Releases "Releases"
  let cells := project_dashboard_body_cells octopus_url space_id summary
    release_workflow_runs deployment_highlights environments releases
  Except.ok ("# " ++ space_name ++ " / " ++ project_name ++ "\n\n" ++ header_block ++
    header ++ separator ++ String.join cells ++ "|  ")

/-- `get_project_dashboard_response` of `chat_responses.py`; `now` is the
instant the source reads from `datetime.now(pytz.utc)` on entry. -/
def get_project_dashboard_response (octopus_url space_id space_name project_name project_id : String)
    (now : Int) (dashboard : Dashboard)
    (github_repo : Option GithubRepo := none)
    (github_actions_statuses : Option (List GithubActionStatus) := none)
    (pull_requests : Option ProjectCount := none)
    (issues : Option ProjectCount := none)
    (release_workflow_runs : Option (List WorkflowRun) := none)
    (deployment_highlights : Option (List DeploymentHighlight) := none) : Except String String :=
  get_project_dashboard_response_core octopus_url space_id space_name project_name project_id
    (fun created => get_date_difference_summary (now - created)) dashboard
    github_repo github_actions_statuses pull_requests issues
    release_workflow_runs deployment_highlights

/-! ## Project × tenant progression (`get_project_tenant_progression_response`) -/

/-- A name/id pair as built for a tenant's environment list. -/
structure EnvRef where
  Name : String
  Id : String
  deriving Repr, DecidableEq

/-- `get_tenant_environments` of `chat_responses.py`: the project environment
ids, restricted to the tenant's per-project allow-list when the tenant has a
truthy id, in project environment order. -/
def get_tenant_environments (tenant : Tenant) (dashboard : Dashboard)
    (project_id : String) : Except String (List String) := do
  let envs ← req dashboard.Environments "Environments"
  Except.ok ((envs.filter (fun project_environment =>
    if truthyOpt tenant.Id then
      ((lookupAssoc tenant.ProjectEnvironments project_id).getD []).contains project_environment.Id
    else true)).map (fun e => e.Id))

/-- `get_tenant_environment_details` of `chat_responses.py`: resolve each id
through `get_env_name`, silently dropping ids with no environment record. -/
def get_tenant_environment_details (environments_ids : List String)
    (dashboard : Dashboard) : Except String (List EnvRef) :=
  match environments_ids with
  | [] => Except.ok []
  | environment :: rest => do
    let environment_name ← get_env_name dashboard environment
    let tail ← get_tenant_environment_details rest dashboard
    match environment_name with
    | some name => Except.ok ({ Name := name, Id := environment } :: tail)
    | none => Except.ok tail

/-- The match predicate of the inner deployment scan: same environment and
same tenant identity (`None == None` holds, so an untenanted deployment
matches the untenanted tenant entry). -/
def deployment_matches (tenant : Tenant) (environment : EnvRef) (deployment : Deployment) : Bool :=
  (deployment.EnvironmentId == environment.Id) && (deployment.TenantId == tenant.Id)

/-- One column cell of a tenant's table: the first matching deployment
rendered, or the bare placeholder glyph. `get_channel_name` is the injected
channel lookup (spec §9), applied to (space id, channel id, api key, url). -/
def tenant_progression_cell (space_id : String) (summary : Int → String)
    (get_channel_name : String → String → String → String → String)
    (release_workflow_runs : Option (List WorkflowRun))
    (deployment_highlights : Option (List DeploymentHighlight))
    (api_key url : String) (dashboard : Dashboard)
    (tenant : Tenant) (environment : EnvRef) : Except String String := do
  let items ← req dashboard.Items "Items"
  match items.find? (deployment_matches tenant environment) with
  | none => Except.ok "⨂"
  | some deployment =>
    let icon := get_state_icon deployment.State deployment.HasWarningsOrErrors
    let created := parse_unknown_format_date deployment.Created
    let difference := summary created
    let channel_name := get_channel_name space_id deployment.ChannelId api_key url
    let release_url := build_deployment_url url space_id deployment.ProjectId
      deployment.ReleaseVersion deployment.DeploymentId
    let messages :=
      [icon ++ " [" ++ deployment.ReleaseVersion ++ "](" ++ release_url ++ ")",
        "🔀 " ++ channel_name,
        "🕗 " ++ difference ++ " ago"] ++
      (matching_workflow_runs release_workflow_runs deployment.ReleaseId).map workflow_run_line ++
      highlight_lines deployment_highlights deployment.DeploymentId
    Except.ok (String.intercalate "<br/>" messages)

/-- The column cells of one tenant's table, one per derived environment. -/
def tenant_progression_columns (space_id : String) (summary : Int → String)
    (get_channel_name : String → String → String → String → String)
    (release_workflow_runs : Option (List WorkflowRun))
    (deployment_highlights : Option (List DeploymentHighlight))
    (api_key url : String) (dashboard : Dashboard)
    (tenant : Tenant) (environments : List EnvRef) : Except String (List String) :=
  mapE (tenant_progression_cell space_id summary get_channel_name
    release_workflow_runs deployment_highlights api_key url dashboard tenant) environments

/-- One tenant section of the progression response: heading, header row,
separator, and either the body row or the literal `No deployments` text. -/
def tenant_progression_section (space_id project_id : String) (summary : Int → String)
    (get_channel_name : String → String → String → String → String)
    (release_workflow_runs : Option (List WorkflowRun))
    (deployment_highlights : Option (List DeploymentHighlight))
    (api_key url : String) (dashboard : Dashboard) (tenant : Tenant) : Except String String := do
  let environments_ids ← get_tenant_environments tenant dashboard project_id
  let environments ← get_tenant_environment_details environments_ids dashboard
  let environment_names := environments.map (fun e => e.Name)
  let header := build_markdown_table_row environment_names
  let separator := build_markdown_table_header_separator environments.length
  let columns ← tenant_progression_columns space_id summary get_channel_name
    release_workflow_runs deployment_highlights api_key url dashboard tenant environments
  let body := if columns.isEmpty then "\nNo deployments"
    else build_markdown_table_row columns
  Except.ok ("## " ++ tenant.Name ++ "\n" ++ header ++ separator ++ body ++ "\n\n")

/-- `get_project_tenant_progression_response` with the ambient clock factored
into `summary` and the channel lookup `get_channel_cached` injected as
`get_channel_name` (modelled from the spec §9: the one external callback,
assumed synchronous and side-effect free). -/
def get_project_tenant_progression_response_core (space_id space_name project_name project_id : String)
    (summary : Int → String)
    (get_channel_name : String → String → String → String → String)
    (dashboard : Dashboard)
    (github_repo : Option GithubRepo)
    (github_actions_statuses : Option (List GithubActionStatus))
    (release_workflow_runs : Option (List WorkflowRun))
    (pull_requests issues : Option ProjectCount)
    (deployment_highlights : Option (List DeploymentHighlight))
    (api_key url : String) : Except String String := do
  let message :=
    build_repo_link github_repo ++
    get_project_workflow_status summary github_actions_statuses project_id ++
    build_pr_response pull_requests github_repo ++
    build_issue_response issues github_repo
  let header_block := if message.isEmpty then ""
    else String.intercalate "<br/>" message ++ "\n\n"
  let tenants ← req dashboard.Tenants "Tenants"
  let sections ← mapE (tenant_progression_section space_id project_id summary get_channel_name
    release_workflow_runs deployment_highlights api_key url dashboard) tenants
  Except.ok ("# " ++ space_name ++ " / " ++ project_name ++ "\n\n" ++ header_block ++
    String.join sections)

/-- `get_project_tenant_progression_response` of `chat_responses.py`; `now`
is the instant the source reads from `datetime.now(pytz.utc)` on entry. -/
def get_project_tenant_progression_response (space_id space_name project_name project_id : String)
    (now : Int)
    (get_channel_name : String → String → String → String → String)
    (dashboard : Dashboard)
    (github_repo : Option GithubRepo)
    (github_actions_statuses : Option (List GithubActionStatus))
    (release_workflow_runs : Option (List WorkflowRun))
    (pull_requests issues : Option ProjectCount)
    (deployment_highlights : Option (List DeploymentHighlight))
    (api_key url : String) : Except String String :=
  get_project_tenant_progression_response_core space_id space_name project_name project_id
    (fun created => get_date_difference_summary (now - created)) get_channel_name dashboard
    github_repo github_actions_statuses release_workflow_runs pull_requests issues
    deployment_highlights api_key url

/-! ## Runbook dashboard (`get_runbook_dashboard_response`) -/

/-- The tenant label a runbook run is filed under: its id when truthy, the
sentinel `Untenanted` otherwise. -/
def runbook_tenant_label (run : RunbookRun) : String :=
  if truthyOpt run.TenantId then run.TenantId.getD "" else "Untenanted"

/-- One step of first-seen deduplication. -/
def dedupStep (acc : List String) (t : String) : List String :=
  if t ∈ acc then acc else acc ++ [t]

/-- `get_tenants` of `chat_responses.py` over the `RunbookRuns` map: the
distinct tenant labels over all environments' runs, first-seen order. -/
def get_tenants_list (runbook_runs : List (String × List RunbookRun)) : List String :=
  runbook_runs.foldl (fun acc p => p.2.foldl (fun acc run => dedupStep acc (runbook_tenant_label run)) acc) []

/-- `get_tenants` of `chat_responses.py` (accesses the `RunbookRuns` key). -/
def get_tenants (dashboard : Dashboard) : Except String (List String) := do
  let runbook_runs ← req dashboard.RunbookRuns "RunbookRuns"
  Except.ok (get_tenants_list runbook_runs)

/-- `build_runbook_run_columns` of `chat_responses.py`; `get_tenant` is the
injected tenant-name lookup. -/
def build_runbook_run_columns (run : RunbookRun) (summary : Int → String)
    (get_tenant : String → String) : List String :=
  let tenant_name := if truthyOpt run.TenantId then get_tenant (run.TenantId.getD "")
    else "Untenanted"
  let created := parse_unknown_format_date run.Created
  let difference := summary created
  let icon := get_state_icon run.State run.HasWarningsOrErrors
  [tenant_name, icon ++ " " ++ difference ++ " ago"]

/-- The run filter of the execution-row loop:
`run['TenantId'] == tenant or (not run['TenantId'] and tenant == "Untenanted")`. -/
def runbook_run_matches (tenant : String) (run : RunbookRun) : Bool :=
  run.TenantId == some tenant || (!truthyOpt run.TenantId && tenant == "Untenanted")

/-- The body rows of the runbook dashboard, one per matching run, iterated
tenant-outer / environment-inner / run-inner. -/
def runbook_body_rows (runbook_runs : List (String × List RunbookRun))
    (summary : Int → String) (get_tenant : String → String) : List String :=
  ((get_tenants_list runbook_runs).map (fun tenant =>
    (runbook_runs.map (fun p =>
      (p.2.filter (runbook_run_matches tenant)).map (fun run =>
        build_markdown_table_row (build_runbook_run_columns run summary get_tenant)))).flatten)).flatten

/-- `get_runbook_dashboard_response` with the ambient clock factored into
`summary`. `project` and `runbook` only contribute their names. -/
def get_runbook_dashboard_response_core (project_name runbook_name : String)
    (summary : Int → String) (dashboard : Dashboard)
    (get_tenant : String → String) : Except String String := do
  let runbook_runs ← req dashboard.RunbookRuns "RunbookRuns"
  let environment_ids := runbook_runs.map (fun p => p.1)
  let environment_names ← mapE (get_env_name dashboard) environment_ids
  let columns ← allSome (some "" :: environment_names)
  let header := build_markdown_table_row columns
  let separator := build_markdown_table_header_separator columns.length
  Except.ok (project_name ++ " / " ++ runbook_name ++ "\n\n" ++ header ++ separator ++
    String.join (runbook_body_rows runbook_runs summary get_tenant))

/-- `get_runbook_dashboard_response` of `chat_responses.py`; `now` is the
instant the source reads from `datetime.now(pytz.utc)` on entry. -/
def get_runbook_dashboard_response (project_name runbook_name : String) (now : Int)
    (dashboard : Dashboard) (get_tenant : String → String) : Except String String :=
  get_runbook_dashboard_response_core project_name runbook_name
    (fun created => get_date_difference_summary (now - created)) dashboard get_tenant

/-! ## Generic lemmas about the embedding's combinators -/

deriving instance DecidableEq for Except

theorem mapE_ok_length {α β : Type} (f : α → Except String β) :
    ∀ (l : List α) (ys : List β), mapE f l = Except.ok ys → ys.length = l.length := by
  intro l
  induction l with
  | nil =>
    intro ys h
    simp only [mapE] at h
    cases h
    rfl
  | cons a rest ih =>
    intro ys h
    simp only [mapE] at h
    cases hfa : f a with
    | error e => rw [hfa] at h; exact Except.noConfusion h
    | ok b =>
      rw [hfa] at h
      cases hml : mapE f rest with
      | error e => rw [hml] at h; exact Except.noConfusion h
      | ok tail =>
        rw [hml] at h
        have h' : Except.ok (b :: tail) = (Except.ok ys : Except String (List β)) := h
        cases h'
        simp [ih tail hml]

theorem allSome_ok_length :
    ∀ (l : List (Option String)) (xs : List String), allSome l = Except.ok xs → xs.length = l.length := by
  intro l
  induction l with
  | nil =>
    intro xs h
    simp only [allSome] at h
    cases h
    rfl
  | cons o rest ih =>
    intro xs h
    cases o with
    | none => exact Except.noConfusion h
    | some s =>
      simp only [allSome] at h
      cases hr : allSome rest with
      | error e => rw [hr] at h; exact Except.noConfusion h
      | ok tail =>
        rw [hr] at h
        have h' : Except.ok (s :: tail) = (Except.ok xs : Except String (List String)) := h
        cases h'
        simp [ih tail hr]

theorem filter_take_one_eq_find {α : Type} (p : α → Bool) :
    ∀ l : List α, (l.filter p).take 1 = (l.find? p).toList := by
  intro l
  induction l with
  | nil => rfl
  | cons a rest ih =>
    cases h : p a <;> simp [List.filter_cons, List.find?_cons, h, ih]

/-! ## Claim theorems -/

/-- C6: `get_state_icon` is a total pure function of (state, has-warnings)
implementing exactly the ordered mapping Executing→🔵, Success with
warnings→🟡, Success without warnings→🟢, Failed→🔴, Canceled→⚪,
TimedOut→🔴, Cancelling→🔴, Queued→🟣, warnings taking precedence over plain
Success, and every other state yielding the default ⚪ without an error. -/
theorem c6_state_icon_mapping (state : String) (w : Bool) :
    get_state_icon "Executing" w = "🔵" ∧
    get_state_icon "Success" true = "🟡" ∧
    get_state_icon "Success" false = "🟢" ∧
    get_state_icon "Failed" w = "🔴" ∧
    get_state_icon "Canceled" w = "⚪" ∧
    get_state_icon "TimedOut" w = "🔴" ∧
    get_state_icon "Cancelling" w = "🔴" ∧
    get_state_icon "Queued" w = "🟣" ∧
    (state ∉ (["Executing", "Success", "Failed", "Canceled", "TimedOut",
        "Cancelling", "Queued"] : List String) →
      get_state_icon state w = "⚪") := by
  refine ⟨rfl, rfl, rfl, rfl, rfl, rfl, rfl, rfl, ?_⟩
  intro h
  simp only [List.mem_cons, List.not_mem_nil, or_false] at h
  push_neg at h
  obtain ⟨h1, h2, h3, h4, h5, h6, h7⟩ := h
  unfold get_state_icon
  rw [if_neg h1, if_neg h2, if_neg h3, if_neg h4, if_neg h5, if_neg h6, if_neg h7]

/-- Witness for C6 at a concrete unmapped state. -/
theorem c6_state_icon_mapping_witness :
    get_state_icon "Deploying" true = "⚪" :=
  (c6_state_icon_mapping "Deploying" true).2.2.2.2.2.2.2.2 (by decide)

/-- C7: `get_github_state_icon` is a total pure function of
(status, conclusion): `in_progress`→🔵 and `queued`→🟣 regardless of
conclusion; otherwise the conclusion decides success→🟢,
failure/timed_out→🔴, action_required→🟠, cancelled/neutral/skipped→⚪,
anything else→⚪; in particular (completed, failure)→🔴. -/
theorem c7_github_state_icon_mapping (status conclusion : Option String) :
    get_github_state_icon (some "in_progress") conclusion = "🔵" ∧
    get_github_state_icon (some "queued") conclusion = "🟣" ∧
    (status ≠ some "in_progress" → status ≠ some "queued" →
      (get_github_state_icon status (some "success") = "🟢" ∧
       get_github_state_icon status (some "failure") = "🔴" ∧
       get_github_state_icon status (some "timed_out") = "🔴" ∧
       get_github_state_icon status (some "action_required") = "🟠" ∧
       get_github_state_icon status (some "cancelled") = "⚪" ∧
       get_github_state_icon status (some "neutral") = "⚪" ∧
       get_github_state_icon status (some "skipped") = "⚪" ∧
       (conclusion ∉ ([some "success", some "failure", some "timed_out",
           some "action_required", some "cancelled", some "neutral",
           some "skipped"] : List (Option String)) →
         get_github_state_icon status conclusion = "⚪"))) ∧
    get_github_state_icon (some "completed") (some "failure") = "🔴" := by
  refine ⟨rfl, rfl, ?_, rfl⟩
  intro hip hq
  have hred : ∀ co : Option String, get_github_state_icon status co =
      (if co = some "success" then "🟢"
       else if co = some "failure" ∨ co = some "timed_out" then "🔴"
       else if co = some "action_required" then "🟠"
       else if co = some "cancelled" ∨ co = some "neutral" ∨ co = some "skipped" then "⚪"
       else "⚪") := by
    intro co
    unfold get_github_state_icon
    rw [if_neg hip, if_neg hq]
  simp only [hred]
  refine ⟨by decide, by decide, by decide, by decide, by decide, by decide, by decide, ?_⟩
  intro h
  simp only [List.mem_cons, List.not_mem_nil, or_false] at h
  push_neg at h
  obtain ⟨h1, h2, h3, h4, h5, h6, h7⟩ := h
  rw [if_neg h1, if_neg (not_or.mpr ⟨h2, h3⟩), if_neg h4, ite_self]

/-- Witness for C7: concrete instances of the conclusion-decided branch. -/
theorem c7_github_state_icon_mapping_witness :
    get_github_state_icon (some "completed") (some "action_required") = "🟠" ∧
    get_github_state_icon (some "completed") (some "something_else") = "⚪" :=
  ⟨((c7_github_state_icon_mapping (some "completed") (some "action_required")).2.2.1
      (by decide) (by decide)).2.2.2.1,
   ((c7_github_state_icon_mapping (some "completed") (some "something_else")).2.2.1
      (by decide) (by decide)).2.2.2.2.2.2.2 (by decide)⟩

/-- C4: in the tenant progression view a deployment whose tenant id is null
matches exactly the tenant entries whose id is null (`None == None`): it is
selected for a tenant's cell only if the tenant's id is null, and never when
the tenant's id is the empty string. -/
theorem c4_untenanted_null_equality (items : List Deployment) (tenant : Tenant)
    (environment : EnvRef) (deployment : Deployment)
    (hnull : deployment.TenantId = none) :
    (deployment_matches tenant environment deployment = true ↔
      (tenant.Id = none ∧ deployment.EnvironmentId = environment.Id)) ∧
    (items.find? (deployment_matches tenant environment) = some deployment →
      tenant.Id = none) ∧
    (tenant.Id = some "" →
      deployment_matches tenant environment deployment = false) := by
  have ha : deployment_matches tenant environment deployment = true ↔
      (tenant.Id = none ∧ deployment.EnvironmentId = environment.Id) := by
    unfold deployment_matches
    rw [hnull]
    cases tenant.Id with
    | none => simp [beq_iff_eq]
    | some t => simp
  refine ⟨ha, ?_, ?_⟩
  · intro hf
    exact (ha.mp (List.find?_some hf)).1
  · intro hid
    cases hm : deployment_matches tenant environment deployment
    · rfl
    · have hnone := (ha.mp hm).1
      rw [hid] at hnone
      exact Option.noConfusion hnone

/-- Witness for C4: a null-tenant deployment is not matched by an
empty-string-id tenant, and is found by the null-id tenant. -/
theorem c4_untenanted_null_equality_witness :
    deployment_matches { Id := some "", Name := "T", ProjectEnvironments := [] }
      { Name := "Dev", Id := "E1" }
      { ProjectId := "P1", EnvironmentId := "E1", TenantId := none,
        ReleaseId := "R1", ReleaseVersion := "1.0", DeploymentId := "D1",
        ChannelId := "C1", Created := 0, State := "Success",
        HasWarningsOrErrors := false } = false :=
  (c4_untenanted_null_equality []
    { Id := some "", Name := "T", ProjectEnvironments := [] }
    { Name := "Dev", Id := "E1" }
    { ProjectId := "P1", EnvironmentId := "E1", TenantId := none,
      ReleaseId := "R1", ReleaseVersion := "1.0", DeploymentId := "D1",
      ChannelId := "C1", Created := 0, State := "Success",
      HasWarningsOrErrors := false } rfl).2.2 rfl

/-- C5: among workflow runs whose ReleaseId equals the release's id and which
have a truthy short sha and url, exactly the first in input order is attached
to a cell; later satisfying runs are dropped; with no satisfying run nothing
is attached. -/
theorem c5_workflow_first_match (runs : List WorkflowRun) (release_id : String) :
    (matching_workflow_runs (some runs) release_id).length ≤ 1 ∧
    matching_workflow_runs (some runs) release_id =
      (runs.find? (workflow_run_matches release_id)).toList ∧
    ((∀ r ∈ runs, workflow_run_matches release_id r = false) →
      matching_workflow_runs (some runs) release_id = []) := by
  have heq : matching_workflow_runs (some runs) release_id =
      (runs.find? (workflow_run_matches release_id)).toList := by
    unfold matching_workflow_runs yield_first
    simp only [Option.getD_some]
    exact filter_take_one_eq_find _ runs
  refine ⟨?_, heq, ?_⟩
  · rw [heq]
    cases runs.find? (workflow_run_matches release_id) <;> simp
  · intro h
    rw [heq, List.find?_eq_none.mpr (fun r hr => by simp [h r hr])]
    rfl

/-- Witness for C5: two satisfying runs — only the first is kept; and a
non-satisfying list yields no run. -/
theorem c5_workflow_first_match_witness :
    matching_workflow_runs (some
      [{ ReleaseId := "R1", Name := some "wf", ShortSha := some "sha1",
         Url := some "u1", Status := none, Conclusion := none },
       { ReleaseId := "R1", Name := some "wf2", ShortSha := some "sha2",
         Url := some "u2", Status := none, Conclusion := none }]) "R1" =
      [{ ReleaseId := "R1", Name := some "wf", ShortSha := some "sha1",
         Url := some "u1", Status := none, Conclusion := none }] ∧
    matching_workflow_runs (some
      [{ ReleaseId := "R2", Name := some "wf", ShortSha := some "sha",
         Url := some "u", Status := none, Conclusion := none }]) "R1" = [] :=
  ⟨(c5_workflow_first_match
      [{ ReleaseId := "R1", Name := some "wf", ShortSha := some "sha1",
         Url := some "u1", Status := none, Conclusion := none },
       { ReleaseId := "R1", Name := some "wf2", ShortSha := some "sha2",
         Url := some "u2", Status := none, Conclusion := none }] "R1").2.1.trans
      (by decide),
   (c5_workflow_first_match
      [{ ReleaseId := "R2", Name := some "wf", ShortSha := some "sha",
         Url := some "u", Status := none, Conclusion := none }] "R1").2.2
      (by decide)⟩

/-- The concrete snapshot of the C2 scenario: one project group, one
environment, one project, zero deployment items. -/
def c2dash : Dashboard :=
  { Environments := some [{ Id := "E1", Name := "Dev" }],
    ProjectGroups := some [{ Id := "PG1", Name := "Default", EnvironmentIds := ["E1"] }],
    Projects := some [{ Id := "P1", Name := "WebApp", ProjectGroupId := "PG1" }],
    Items := some [] }

/-- C2 (counterexample): on the C2 scenario the rendered output is not the
one the claim describes — neither with the claimed separator `|--|--|`, nor
with the claimed body row `| WebApp | ⨂|` (the code puts a space before the
closing pipe), nor with both; and the separator built for two columns is not
`|--|--|`. -/
theorem c2_scenario_counterexample :
    get_dashboard_response "" "" "Space" 0 c2dash ≠
      Except.ok "# Space\n\n| Default | Dev |\n|--|--|\n| WebApp | ⨂|\n\n" ∧
    get_dashboard_response "" "" "Space" 0 c2dash ≠
      Except.ok "# Space\n\n| Default | Dev |\n|--|--|\n| WebApp | ⨂ |\n\n" ∧
    get_dashboard_response "" "" "Space" 0 c2dash ≠
      Except.ok "# Space\n\n| Default | Dev |\n|-|-|\n| WebApp | ⨂|\n\n" ∧
    build_markdown_table_header_separator 2 ≠ "|--|--|\n" := by
  decide

/-- C2 (amended): on the C2 scenario the header row is `| Default | Dev |`,
the separator line is `|-|-|` (count+1 pipes joined by single dashes), and
the body row is `| WebApp | ⨂ |` (placeholder cell with a space before the
closing pipe). -/
theorem c2_scenario_amended :
    get_dashboard_response "" "" "Space" 0 c2dash =
      Except.ok "# Space\n\n| Default | Dev |\n|-|-|\n| WebApp | ⨂ |\n\n" ∧
    build_markdown_table_row ["Default", "Dev"] = "| Default | Dev |\n" ∧
    build_markdown_table_header_separator 2 = "|-|-|\n" := by
  decide

/-- C9 (counterexample): a snapshot that has a `ProjectGroups` list but is
missing the required `Environments`, `Projects` and `Items` keys renders
successfully (the keys are only read lazily, when a project group actually
needs them), refuting "for every snapshot missing a required key a render
call fails with an error". -/
theorem c9_missing_key_counterexample :
    get_dashboard_response "" "" "Space" 0 { ProjectGroups := some [] } =
      Except.ok "# Space\n\n" := by
  decide

/-- C9 (amended): a render call fails atomically — it returns an error value
and no output string — exactly when rendering reaches a missing required
key: a missing `ProjectGroups` always fails `get_dashboard_response`, a
missing `Environments` always fails `get_project_dashboard_response`, a
missing `Tenants` always fails `get_project_tenant_progression_response`, a
missing `RunbookRuns` always fails `get_runbook_dashboard_response`; and
every call either returns a complete string or an error, never a partial
rendering. A missing key that rendering never reaches does not fail. -/
theorem c9_missing_key_amended (octopus_url space_id space_name project_name project_id runbook_name : String)
    (now : Int) (d : Dashboard)
    (ga : Option (List GithubRepo)) (gas : Option (List GithubActionStatus))
    (prsl issl : Option (List ProjectCount)) (prs iss : Option ProjectCount)
    (repo : Option GithubRepo) (rwr : Option (List WorkflowRun))
    (dh : Option (List DeploymentHighlight))
    (gcn : String → String → String → String → String) (gt : String → String)
    (api_key url : String) :
    (d.ProjectGroups = none →
      get_dashboard_response octopus_url space_id space_name now d ga gas prsl issl =
        Except.error "ProjectGroups") ∧
    (d.Environments = none →
      get_project_dashboard_response octopus_url space_id space_name project_name project_id
        now d repo gas prs iss rwr dh = Except.error "Environments") ∧
    (d.Tenants = none →
      get_project_tenant_progression_response space_id space_name project_name project_id
        now gcn d repo gas rwr prs iss dh api_key url = Except.error "Tenants") ∧
    (d.RunbookRuns = none →
      get_runbook_dashboard_response project_name runbook_name now d gt =
        Except.error "RunbookRuns") ∧
    ((∃ s, get_dashboard_response octopus_url space_id space_name now d ga gas prsl issl =
        Except.ok s) ∨
     (∃ m, get_dashboard_response octopus_url space_id space_name now d ga gas prsl issl =
        Except.error m)) := by
  refine ⟨?_, ?_, ?_, ?_, ?_⟩
  · intro h
    simp only [get_dashboard_response, get_dashboard_response_core, req, h]
    rfl
  · intro h
    simp only [get_project_dashboard_response, get_project_dashboard_response_core, req, h]
    rfl
  · intro h
    simp only [get_project_tenant_progression_response,
      get_project_tenant_progression_response_core, req, h]
    rfl
  · intro h
    simp only [get_runbook_dashboard_response, get_runbook_dashboard_response_core, req, h]
    rfl
  · cases hx : get_dashboard_response octopus_url space_id space_name now d ga gas prsl issl with
    | ok s => exact Or.inl ⟨s, rfl⟩
    | error m => exact Or.inr ⟨m, rfl⟩

/-- Witness for C9 at the empty snapshot: every entry point fails fast with
the first key it reaches. -/
theorem c9_missing_key_amended_witness :
    get_dashboard_response "" "" "S" 0 {} none none none none =
      Except.error "ProjectGroups" ∧
    get_project_dashboard_response "" "" "S" "P" "P1" 0 {} none none none none none none =
      Except.error "Environments" ∧
    get_project_tenant_progression_response "" "S" "P" "P1" 0 (fun _ _ _ _ => "") {}
      none none none none none none "" "" = Except.error "Tenants" ∧
    get_runbook_dashboard_response "P" "R" 0 {} (fun _ => "") =
      Except.error "RunbookRuns" :=
  ⟨(c9_missing_key_amended "" "" "S" "P" "P1" "R" 0 {} none none none none none none
      none none none (fun _ _ _ _ => "") (fun _ => "") "" "").1 rfl,
   (c9_missing_key_amended "" "" "S" "P" "P1" "R" 0 {} none none none none none none
      none none none (fun _ _ _ _ => "") (fun _ => "") "" "").2.1 rfl,
   (c9_missing_key_amended "" "" "S" "P" "P1" "R" 0 {} none none none none none none
      none none none (fun _ _ _ _ => "") (fun _ => "") "" "").2.2.1 rfl,
   (c9_missing_key_amended "" "" "S" "P" "P1" "R" 0 {} none none none none none none
      none none none (fun _ _ _ _ => "") (fun _ => "") "" "").2.2.2.1 rfl⟩

/-- C3: every render entry point is deterministic in its input snapshot plus
the "now" instant: repeated invocation with identical arguments and identical
`now` yields the identical string, and the output depends on `now` only
through the relative-time phrases `get_date_difference_summary (now - created)`
— two instants whose relative-time phrases agree on every timestamp yield
byte-identical output. -/
theorem c3_render_deterministic (octopus_url space_id space_name project_name project_id runbook_name : String)
    (now1 now2 : Int) (d : Dashboard)
    (ga : Option (List GithubRepo)) (gas : Option (List GithubActionStatus))
    (prsl issl : Option (List ProjectCount)) (prs iss : Option ProjectCount)
    (repo : Option GithubRepo) (rwr : Option (List WorkflowRun))
    (dh : Option (List DeploymentHighlight))
    (gcn : String → String → String → String → String) (gt : String → String)
    (api_key url : String) :
    (get_dashboard_response octopus_url space_id space_name now1 d ga gas prsl issl =
      get_dashboard_response octopus_url space_id space_name now1 d ga gas prsl issl) ∧
    (get_project_dashboard_response octopus_url space_id space_name project_name project_id
        now1 d repo gas prs iss rwr dh =
      get_project_dashboard_response octopus_url space_id space_name project_name project_id
        now1 d repo gas prs iss rwr dh) ∧
    (get_project_tenant_progression_response space_id space_name project_name project_id
        now1 gcn d repo gas rwr prs iss dh api_key url =
      get_project_tenant_progression_response space_id space_name project_name project_id
        now1 gcn d repo gas rwr prs iss dh api_key url) ∧
    (get_runbook_dashboard_response project_name runbook_name now1 d gt =
      get_runbook_dashboard_response project_name runbook_name now1 d gt) ∧
    ((∀ t : Int, get_date_difference_summary (now1 - t) =
        get_date_difference_summary (now2 - t)) →
      (get_dashboard_response octopus_url space_id space_name now1 d ga gas prsl issl =
        get_dashboard_response octopus_url space_id space_name now2 d ga gas prsl issl) ∧
      (get_project_dashboard_response octopus_url space_id space_name project_name project_id
          now1 d repo gas prs iss rwr dh =
        get_project_dashboard_response octopus_url space_id space_name project_name project_id
          now2 d repo gas prs iss rwr dh) ∧
      (get_project_tenant_progression_response space_id space_name project_name project_id
          now1 gcn d repo gas rwr prs iss dh api_key url =
        get_project_tenant_progression_response space_id space_name project_name project_id
          now2 gcn d repo gas rwr prs iss dh api_key url) ∧
      (get_runbook_dashboard_response project_name runbook_name now1 d gt =
        get_runbook_dashboard_response project_name runbook_name now2 d gt)) := by
  refine ⟨rfl, rfl, rfl, rfl, ?_⟩
  intro h
  have hfun : (fun created => get_date_difference_summary (now1 - created)) =
      (fun created => get_date_difference_summary (now2 - created)) := funext h
  refine ⟨?_, ?_, ?_, ?_⟩
  · simp only [get_dashboard_response]
    rw [hfun]
  · simp only [get_project_dashboard_response]
    rw [hfun]
  · simp only [get_project_tenant_progression_response]
    rw [hfun]
  · simp only [get_runbook_dashboard_response]
    rw [hfun]

/-- Witness for C3 at identical instants on the C2 scenario snapshot. -/
theorem c3_render_deterministic_witness :
    get_dashboard_response "" "" "Space" 7 c2dash none none none none =
      get_dashboard_response "" "" "Space" 7 c2dash none none none none :=
  ((c3_render_deterministic "" "" "Space" "P" "P1" "R" 7 7 c2dash none none none none
      none none none none none (fun _ _ _ _ => "") (fun _ => "") "" "").2.2.2.2
    (fun _ => rfl)).1

theorem exceptBind_ok {α β : Type} (a : α) (f : α → Except String β) :
    (Except.ok a : Except String α) >>= f = f a := rfl

theorem exceptBind_error {α β : Type} (e : String) (f : α → Except String β) :
    (Except.error e : Except String α) >>= f = Except.error e := rfl

theorem dashboard_github_cell_length (summary : Int → String)
    (ga : Option (List GithubRepo)) (gas : Option (List GithubActionStatus))
    (prsl issl : Option (List ProjectCount)) (project : Project) :
    (dashboard_github_cell summary ga gas prsl issl project).length =
      if truthyList gas then 1 else 0 := by
  unfold dashboard_github_cell
  split
  · dsimp only
    split <;> rfl
  · rfl

theorem project_dashboard_pair_cells_length (octopus_url space_id : String)
    (summary : Int → String) (rwr : Option (List WorkflowRun))
    (dh : Option (List DeploymentHighlight)) (environment : Environment)
    (release : ReleaseEntry) :
    (project_dashboard_pair_cells octopus_url space_id summary rwr dh environment release).length =
      (match lookupAssoc release.Deployments environment.Id with
       | some deployments => deployments.length
       | none => 1) := by
  unfold project_dashboard_pair_cells
  cases lookupAssoc release.Deployments environment.Id <;> simp

/-- C1 (counterexample): `get_project_dashboard_response` does not give each
row one cell per header column. With one environment and zero releases the
header declares one column (`| Dev |`) but the single body row (`|  `)
contains zero cells. -/
theorem c1_cells_counterexample :
    get_project_dashboard_response "" "" "S" "P" "P1" 0
      { Environments := some [{ Id := "E1", Name := "Dev" }], Releases := some [] } =
      Except.ok "# S / P\n\n| Dev |\n|-|\n|  " ∧
    (project_dashboard_body_cells "" ""
      (fun created => get_date_difference_summary (0 - created)) none none
      [{ Id := "E1", Name := "Dev" }] []).length = 0 ∧
    ([{ Id := "E1", Name := "Dev" }] : List Environment).length = 1 := by
  decide

/-- C1 (amended): in the space dashboard every project row has exactly one
cell per header column and a (project, environment) position with no
matching deployment renders the `| ⨂ ` cell; in the tenant progression view
every body row has exactly one cell per derived environment column and a
position with no matching deployment renders the `⨂` cell; but in
`get_project_dashboard_response` the single body row instead has one cell
per deployment of each (environment, release) pair with a deployments entry
plus one placeholder per pair without one, which need not equal the column
count. -/
theorem c1_cells_per_column (octopus_url space_id : String) (summary : Int → String)
    (d : Dashboard) (ga : Option (List GithubRepo))
    (gas : Option (List GithubActionStatus)) (prsl issl : Option (List ProjectCount))
    (group : ProjectGroup) (project : Project) (cols cells : List String)
    (items : List Deployment) (pid eid : String)
    (gcn : String → String → String → String → String)
    (rwr : Option (List WorkflowRun)) (dh : Option (List DeploymentHighlight))
    (api_key url : String) (tenant : Tenant) (env : EnvRef)
    (environments : List EnvRef) (tcols : List String)
    (envsL : List Environment) (rels : List ReleaseEntry) :
    (dashboard_group_columns d gas group = Except.ok cols →
      dashboard_project_row_cells octopus_url space_id summary d ga gas prsl issl
        group project = Except.ok cells →
      cells.length = cols.length) ∧
    (d.Items = some items →
      items.filter (fun it => it.ProjectId == pid && it.EnvironmentId == eid) = [] →
      dashboard_deployment_cell octopus_url space_id summary d pid eid =
        Except.ok "| ⨂ ") ∧
    (tenant_progression_columns space_id summary gcn rwr dh api_key url d tenant
        environments = Except.ok tcols →
      tcols.length = environments.length) ∧
    (d.Items = some items →
      items.find? (deployment_matches tenant env) = none →
      tenant_progression_cell space_id summary gcn rwr dh api_key url d tenant env =
        Except.ok "⨂") ∧
    ((project_dashboard_body_cells octopus_url space_id summary rwr dh envsL rels).length =
      (envsL.map (fun e => (rels.map (fun r =>
        match lookupAssoc r.Deployments e.Id with
        | some deployments => deployments.length
        | none => 1)).sum)).sum) := by
  refine ⟨?_, ?_, ?_, ?_, ?_⟩
  · intro h1 h2
    simp only [dashboard_group_columns] at h1
    cases hn : mapE (get_env_name d) group.EnvironmentIds with
    | error e => rw [hn] at h1; exact Except.noConfusion h1
    | ok names =>
      rw [hn, exceptBind_ok] at h1
      have hcols := allSome_ok_length _ _ h1
      have hnames := mapE_ok_length _ _ _ hn
      simp only [dashboard_project_row_cells] at h2
      cases hdc : mapE (dashboard_deployment_cell octopus_url space_id summary d project.Id)
          group.EnvironmentIds with
      | error e => rw [hdc] at h2; exact Except.noConfusion h2
      | ok depCells =>
        rw [hdc, exceptBind_ok] at h2
        have hdcl := mapE_ok_length _ _ _ hdc
        injection h2 with h2'
        subst h2'
        rw [hcols]
        simp only [List.length_cons, List.length_append, dashboard_github_cell_length,
          hdcl, hnames]
        cases truthyList gas <;> simp <;> omega
  · intro hI hf
    simp only [dashboard_deployment_cell, req, hI, exceptBind_ok]
    rw [hf]
  · intro h
    exact mapE_ok_length _ _ _ h
  · intro hI hf
    simp only [tenant_progression_cell, req, hI, exceptBind_ok]
    rw [hf]
  · unfold project_dashboard_body_cells
    simp only [List.length_flatten, List.map_map]
    congr 1
    refine List.map_congr_left ?_
    intro e he
    simp only [Function.comp, List.length_flatten, List.map_map]
    congr 1
    refine List.map_congr_left ?_
    intro r hr
    simp only [Function.comp, project_dashboard_pair_cells_length]

/-- Witness for C1 (amended) on the C2 scenario snapshot: the project row of
the one-group table has as many cells as the two header columns, the empty
(project, environment) position renders the placeholder cell, and the tenant
progression cell with no matching deployment renders the bare placeholder. -/
theorem c1_cells_per_column_witness :
    (["| WebApp ", "| ⨂ "] : List String).length = (["Default", "Dev"] : List String).length ∧
    dashboard_deployment_cell "" "" (fun created => get_date_difference_summary (0 - created))
      c2dash "P1" "E1" = Except.ok "| ⨂ " ∧
    tenant_progression_cell "" (fun created => get_date_difference_summary (0 - created))
      (fun _ _ _ _ => "") none none "" "" c2dash
      { Id := none, Name := "T", ProjectEnvironments := [] }
      { Name := "Dev", Id := "E1" } = Except.ok "⨂" :=
  ⟨(c1_cells_per_column "" "" (fun created => get_date_difference_summary (0 - created))
      c2dash none none none none
      { Id := "PG1", Name := "Default", EnvironmentIds := ["E1"] }
      { Id := "P1", Name := "WebApp", ProjectGroupId := "PG1" }
      ["Default", "Dev"] ["| WebApp ", "| ⨂ "] [] "P1" "E1"
      (fun _ _ _ _ => "") none none "" ""
      { Id := none, Name := "T", ProjectEnvironments := [] }
      { Name := "Dev", Id := "E1" } [] [] [] []).1 (by decide) (by decide),
   (c1_cells_per_column "" "" (fun created => get_date_difference_summary (0 - created))
      c2dash none none none none
      { Id := "PG1", Name := "Default", EnvironmentIds := ["E1"] }
      { Id := "P1", Name := "WebApp", ProjectGroupId := "PG1" }
      ["Default", "Dev"] ["| WebApp ", "| ⨂ "] [] "P1" "E1"
      (fun _ _ _ _ => "") none none "" ""
      { Id := none, Name := "T", ProjectEnvironments := [] }
      { Name := "Dev", Id := "E1" } [] [] [] []).2.1 (by decide) (by decide),
   (c1_cells_per_column "" "" (fun created => get_date_difference_summary (0 - created))
      c2dash none none none none
      { Id := "PG1", Name := "Default", EnvironmentIds := ["E1"] }
      { Id := "P1", Name := "WebApp", ProjectGroupId := "PG1" }
      ["Default", "Dev"] ["| WebApp ", "| ⨂ "] [] "P1" "E1"
      (fun _ _ _ _ => "") none none "" ""
      { Id := none, Name := "T", ProjectEnvironments := [] }
      { Name := "Dev", Id := "E1" } [] [] [] []).2.2.2.1 (by decide) (by decide)⟩

theorem dedupStep_mem (acc : List String) (t x : String) :
    x ∈ dedupStep acc t ↔ x ∈ acc ∨ x = t := by
  unfold dedupStep
  split
  · rename_i h
    constructor
    · exact Or.inl
    · intro hx
      cases hx with
      | inl h' => exact h'
      | inr h' => rwa [h']
  · simp [List.mem_append]

theorem dedupStep_nodup (acc : List String) (t : String) (h : acc.Nodup) :
    (dedupStep acc t).Nodup := by
  unfold dedupStep
  split
  · exact h
  · rename_i ht
    simp [List.nodup_append, h, ht]

theorem foldl_dedupStep_nodup :
    ∀ (ts acc : List String), acc.Nodup → (ts.foldl dedupStep acc).Nodup := by
  intro ts
  induction ts with
  | nil => intro acc h; exact h
  | cons t ts ih => intro acc h; exact ih _ (dedupStep_nodup acc t h)

theorem foldl_dedupStep_mem :
    ∀ (ts acc : List String) (x : String), x ∈ ts.foldl dedupStep acc ↔ x ∈ acc ∨ x ∈ ts := by
  intro ts
  induction ts with
  | nil => simp
  | cons t ts ih =>
    intro acc x
    simp only [List.foldl_cons, ih, dedupStep_mem, List.mem_cons]
    tauto

theorem foldl_dedupStep_sublist :
    ∀ (ts acc : List String), ∃ s, ts.foldl dedupStep acc = acc ++ s ∧ s.Sublist ts := by
  intro ts
  induction ts with
  | nil => intro acc; exact ⟨[], by simp, List.nil_sublist _⟩
  | cons t ts ih =>
    intro acc
    by_cases h : t ∈ acc
    · obtain ⟨s, hs, hsub⟩ := ih acc
      refine ⟨s, ?_, hsub.cons t⟩
      simpa [List.foldl_cons, dedupStep, h] using hs
    · obtain ⟨s, hs, hsub⟩ := ih (acc ++ [t])
      refine ⟨t :: s, ?_, hsub.cons₂ t⟩
      rw [List.foldl_cons,
        show dedupStep acc t = acc ++ [t] from by unfold dedupStep; rw [if_neg h],
        hs, List.append_assoc]
      rfl

theorem get_tenants_list_eq_foldl :
    ∀ (rr : List (String × List RunbookRun)) (acc : List String),
      rr.foldl (fun acc p => p.2.foldl (fun acc run => dedupStep acc (runbook_tenant_label run)) acc) acc =
      ((rr.map (fun p => p.2.map runbook_tenant_label)).flatten).foldl dedupStep acc := by
  intro rr
  induction rr with
  | nil => intro acc; rfl
  | cons p rr ih =>
    intro acc
    simp only [List.foldl_cons, List.map_cons, List.flatten_cons, List.foldl_append]
    rw [List.foldl_map]
    exact ih _

/-- C8: `get_runbook_dashboard_response` collects the distinct tenant labels
over all environments' runbook runs (untenanted runs normalised to the
sentinel `Untenanted`), first-seen order (the collected list is duplicate
free, contains exactly the labels occurring in the runs, and is a sublist of
the label stream in encounter order), and emits one body row per matching
run per (tenant, environment) pair — k matching runs yield exactly k rows. -/
theorem c8_runbook_rows_per_matching_run (rr : List (String × List RunbookRun))
    (summary : Int → String) (get_tenant : String → String) :
    (get_tenants_list rr).Nodup ∧
    (∀ t, t ∈ get_tenants_list rr ↔
      t ∈ (rr.map (fun p => p.2.map runbook_tenant_label)).flatten) ∧
    (get_tenants_list rr).Sublist ((rr.map (fun p => p.2.map runbook_tenant_label)).flatten) ∧
    (∀ run : RunbookRun, run.TenantId = none →
      runbook_tenant_label run = "Untenanted" ∧
      runbook_run_matches "Untenanted" run = true) ∧
    (runbook_body_rows rr summary get_tenant).length =
      ((get_tenants_list rr).map (fun tenant =>
        (rr.map (fun p => (p.2.filter (runbook_run_matches tenant)).length)).sum)).sum := by
  have heq : get_tenants_list rr =
      ((rr.map (fun p => p.2.map runbook_tenant_label)).flatten).foldl dedupStep [] :=
    get_tenants_list_eq_foldl rr []
  refine ⟨?_, ?_, ?_, ?_, ?_⟩
  · rw [heq]
    exact foldl_dedupStep_nodup _ [] List.nodup_nil
  · intro t
    rw [heq, foldl_dedupStep_mem]
    simp
  · rw [heq]
    obtain ⟨s, hs, hsub⟩ := foldl_dedupStep_sublist
      ((rr.map (fun p => p.2.map runbook_tenant_label)).flatten) []
    rw [hs]
    simpa using hsub
  · intro run h
    constructor
    · simp [runbook_tenant_label, truthyOpt, h]
    · simp [runbook_run_matches, truthyOpt, h]
  · unfold runbook_body_rows
    simp only [List.length_flatten, List.map_map]
    congr 1
    refine List.map_congr_left ?_
    intro t ht
    simp only [Function.comp, List.length_flatten, List.map_map]
    congr 1
    refine List.map_congr_left ?_
    intro p hp
    simp only [Function.comp, List.length_map]

/-- Witness for C8: a concrete untenanted run is filed under the sentinel
label and matched by it. -/
theorem c8_runbook_rows_per_matching_run_witness :
    runbook_tenant_label
      { TenantId := none, Created := 0, State := "Success", HasWarningsOrErrors := false } =
      "Untenanted" ∧
    runbook_run_matches "Untenanted"
      { TenantId := none, Created := 0, State := "Success", HasWarningsOrErrors := false } =
      true :=
  (c8_runbook_rows_per_matching_run [] (fun _ => "") (fun _ => "")).2.2.2.1
    { TenantId := none, Created := 0, State := "Success", HasWarningsOrErrors := false } rfl

theorem get_env_name_ok (d : Dashboard) (envs : List Environment)
    (h : d.Environments = some envs) (eid : String) :
    get_env_name d eid =
      Except.ok ((envs.find? (fun e => e.Id == eid)).map (fun e => e.Name)) := by
  simp only [get_env_name, req, h, exceptBind_ok]
  cases hf : envs.find? (fun e => e.Id == eid) <;> simp

theorem tenant_environment_details_known (d : Dashboard) (envs : List Environment)
    (h : d.Environments = some envs) :
    ∀ (ids : List String) (details : List EnvRef),
      get_tenant_environment_details ids d = Except.ok details →
      (∀ e ∈ details, e.Id ∈ ids ∧ ∃ env ∈ envs, env.Id = e.Id) ∧
      ((∀ eid ∈ ids, envs.find? (fun x => x.Id == eid) = none) → details = []) := by
  intro ids
  induction ids with
  | nil =>
    intro details hdet
    simp only [get_tenant_environment_details] at hdet
    injection hdet with hdet'
    subst hdet'
    exact ⟨fun e he => absurd he (List.not_mem_nil e), fun _ => rfl⟩
  | cons eid rest ih =>
    intro details hdet
    simp only [get_tenant_environment_details, get_env_name_ok d envs h, exceptBind_ok] at hdet
    cases hrec : get_tenant_environment_details rest d with
    | error e => rw [hrec] at hdet; exact Except.noConfusion hdet
    | ok tail =>
      rw [hrec, exceptBind_ok] at hdet
      obtain ⟨ihmem, ihnil⟩ := ih tail hrec
      cases hfind : envs.find? (fun e => e.Id == eid) with
      | none =>
        rw [hfind] at hdet
        simp only [Option.map_none'] at hdet
        injection hdet with hdet'
        subst hdet'
        refine ⟨?_, ?_⟩
        · intro e he
          obtain ⟨hin, henv⟩ := ihmem e he
          exact ⟨List.mem_cons_of_mem _ hin, henv⟩
        · intro hall
          exact ihnil (fun x hx => hall x (List.mem_cons_of_mem _ hx))
      | some env =>
        rw [hfind] at hdet
        simp only [Option.map_some'] at hdet
        injection hdet with hdet'
        subst hdet'
        refine ⟨?_, ?_⟩
        · intro e he
          cases he with
          | head =>
            refine ⟨List.mem_cons_self _ _, env, List.mem_of_find?_eq_some hfind, ?_⟩
            have := List.find?_some hfind
            simpa [beq_iff_eq] using this
          | tail _ hmem =>
            obtain ⟨hin, henv⟩ := ihmem e hmem
            exact ⟨List.mem_cons_of_mem _ hin, henv⟩
        · intro hall
          have := hall eid (List.mem_cons_self _ _)
          rw [hfind] at this
          exact Option.noConfusion this

theorem tenant_environment_details_all_unknown (d : Dashboard) (envs : List Environment)
    (h : d.Environments = some envs) :
    ∀ ids : List String, (∀ eid ∈ ids, envs.find? (fun x => x.Id == eid) = none) →
      get_tenant_environment_details ids d = Except.ok [] := by
  intro ids
  induction ids with
  | nil => intro _; rfl
  | cons eid rest ih =>
    intro hall
    simp only [get_tenant_environment_details, get_env_name_ok d envs h, exceptBind_ok]
    rw [hall eid (List.mem_cons_self _ _)]
    simp only [Option.map_none']
    rw [ih (fun x hx => hall x (List.mem_cons_of_mem _ hx)), exceptBind_ok]

/-- C10: in the tenant progression view every environment id with no matching
Environment record is silently dropped when the id list is resolved to
name/id pairs — each retained entry comes from an id in the list and has a
matching Environment record, an unknown id contributes no entry (so neither
a header cell nor a body cell), and when every derived id is unknown the
tenant's section degenerates to heading plus the literal `No deployments`
text. -/
theorem c10_unknown_envs_silently_omitted (space_id project_id : String)
    (summary : Int → String)
    (gcn : String → String → String → String → String)
    (rwr : Option (List WorkflowRun)) (dh : Option (List DeploymentHighlight))
    (api_key url : String) (d : Dashboard) (envs : List Environment) (tenant : Tenant)
    (ids : List String) (details : List EnvRef)
    (h : d.Environments = some envs) :
    (get_tenant_environment_details ids d = Except.ok details →
      (∀ e ∈ details, e.Id ∈ ids ∧ ∃ env ∈ envs, env.Id = e.Id) ∧
      (∀ eid ∈ ids, envs.find? (fun x => x.Id == eid) = none →
        ∀ e ∈ details, e.Id ≠ eid) ∧
      ((∀ eid ∈ ids, envs.find? (fun x => x.Id == eid) = none) → details = [])) ∧
    (get_tenant_environments tenant d project_id = Except.ok ids →
      (∀ eid ∈ ids, envs.find? (fun x => x.Id == eid) = none) →
      tenant_progression_section space_id project_id summary gcn rwr dh api_key url d tenant =
        Except.ok ("## " ++ tenant.Name ++ "\n\nNo deployments\n\n")) := by
  refine ⟨?_, ?_⟩
  · intro hdet
    obtain ⟨hmem, hnil⟩ := tenant_environment_details_known d envs h ids details hdet
    refine ⟨hmem, ?_, hnil⟩
    intro eid hin hnone e he heq
    obtain ⟨-, env, henvmem, hid⟩ := hmem e he
    rw [List.find?_eq_none] at hnone
    exact hnone env henvmem (by simp [hid, heq])
  · intro hids hunknown
    simp only [tenant_progression_section, hids, exceptBind_ok,
      tenant_environment_details_all_unknown d envs h ids hunknown]
    simp only [List.map_nil, List.length_nil, build_markdown_table_row,
      build_markdown_table_header_separator, List.isEmpty_nil, if_pos, if_true]
    simp only [tenant_progression_columns, mapE, exceptBind_ok]
    congr 1
    simp only [List.isEmpty_nil, if_true]
    simp only [String.append_assoc]
    congr 1

/-- The snapshot of the C10 witness: a single known environment. -/
def c10dash : Dashboard :=
  { Environments := some [{ Id := "E1", Name := "Dev" }] }

/-- Witness for C10: resolving `["EX", "E1"]` keeps only the known `E1`, and
a tenant whose allow-list strips every environment renders the `No
deployments` section. -/
theorem c10_unknown_envs_silently_omitted_witness :
    (∀ e ∈ ([{ Name := "Dev", Id := "E1" }] : List EnvRef),
      e.Id ∈ (["EX", "E1"] : List String) ∧
      ∃ env ∈ ([{ Id := "E1", Name := "Dev" }] : List Environment), env.Id = e.Id) ∧
    tenant_progression_section "" "P1" (fun _ => "") (fun _ _ _ _ => "") none none "" ""
      c10dash { Id := some "T1", Name := "TenOne", ProjectEnvironments := [] } =
      Except.ok "## TenOne\n\nNo deployments\n\n" :=
  ⟨((c10_unknown_envs_silently_omitted "" "P1" (fun _ => "") (fun _ _ _ _ => "")
      none none "" "" c10dash [{ Id := "E1", Name := "Dev" }]
      { Id := some "T1", Name := "TenOne", ProjectEnvironments := [] }
      ["EX", "E1"] [{ Name := "Dev", Id := "E1" }] rfl).1 (by decide)).1,
   (c10_unknown_envs_silently_omitted "" "P1" (fun _ => "") (fun _ _ _ _ => "")
      none none "" "" c10dash [{ Id := "E1", Name := "Dev" }]
      { Id := some "T1", Name := "TenOne", ProjectEnvironments := [] }
      [] [] rfl).2 (by decide) (by decide)⟩
